import Mathlib

/-
Shallow embedding of the schematic-kafka library (TypeScript sources:
kafka-helper.ts, function-cacher.ts, kafka-registry-helper.ts,
schema-registry-client.ts).

Modelling conventions:
- Node Buffers are lists of byte values (Nat), with the bounds checks of
  Buffer.readUInt8 / readUInt32BE / writeUInt32BE made explicit.
- JavaScript exceptions are an explicit error type; a fallible operation
  returns Except JsError.
- Each awaited network round trip (checkSchema, registerSchema,
  getLatestVersionForSubject, getSchemaById) is an oracle parameter giving
  the settled outcome of that call, since the HTTP transport is an external
  collaborator of the library.
-/

namespace SchematicKafka

/-- Enum SchemaType from schema-registry-client.ts (AVRO is the default). -/
inductive SchemaType where
  | AVRO
  | PROTOBUF
  | JSON
deriving DecidableEq, Repr

/-- String value of the enum member, as interpolated into template literals. -/
def SchemaType.toStr : SchemaType → String
  | .AVRO => "AVRO"
  | .PROTOBUF => "PROTOBUF"
  | .JSON => "JSON"

/-- Model of the JavaScript error values thrown by the library code.
schemaRegistryError is the class SchemaRegistryError with its errorCode
field (an Option Int because in JavaScript the destructured error_code of a
response body can be undefined); jsError is a plain new Error(message);
jsTypeError models the TypeError raised when calling undefined as a
function; rangeError models ERR_OUT_OF_RANGE thrown by out-of-bounds Buffer
reads and writes; parseFailure models the SyntaxError thrown by JSON.parse
on a malformed body. -/
inductive JsError where
  | schemaRegistryError (errorCode : Option Int) (message : Option String)
  | jsError (message : String)
  | jsTypeError
  | rangeError
  | parseFailure (message : String)
deriving DecidableEq, Repr

/-- Buffer.prototype.readUInt8: bounds-checked single byte read. Node throws
ERR_OUT_OF_RANGE when offset + 1 exceeds the buffer length. -/
def readUInt8 (buf : List Nat) (offset : Nat) : Except JsError Nat :=
  if offset + 1 ≤ buf.length then .ok (buf.getD offset 0) else .error .rangeError

/-- Buffer.prototype.readUInt32BE: bounds-checked big-endian 32 bit read. -/
def readUInt32BE (buf : List Nat) (offset : Nat) : Except JsError Nat :=
  if offset + 4 ≤ buf.length then
    .ok (buf.getD offset 0 * 2 ^ 24 + buf.getD (offset + 1) 0 * 2 ^ 16 +
      buf.getD (offset + 2) 0 * 2 ^ 8 + buf.getD (offset + 3) 0)
  else .error .rangeError

/-- Big-endian byte decomposition written by Buffer.prototype.writeUInt32BE. -/
def writeUInt32BEBytes (value : Nat) : List Nat :=
  [value / 2 ^ 24 % 256, value / 2 ^ 16 % 256, value / 2 ^ 8 % 256, value % 256]

/-- kafkaEncode from kafka-helper.ts: allocate length + 5 bytes, write the
marker byte 0, write the schema id as big-endian 32 bit at offset 1, copy
the encoded message at offset 5. Node writeUInt32BE throws ERR_OUT_OF_RANGE
when the value does not fit in an unsigned 32 bit integer. The runtime
check that the message is a Buffer is handled by typing here. -/
def kafkaEncode (schemaId : Nat) (encodedMessage : List Nat) : Except JsError (List Nat) :=
  if schemaId < 2 ^ 32 then
    .ok (0 :: (writeUInt32BEBytes schemaId ++ encodedMessage))
  else .error .rangeError

/-- Result shape of kafkaDecode: optional schema id plus payload. -/
structure DecodedFrame where
  schemaId : Option Nat
  payload : List Nat
deriving DecidableEq, Repr

/-- kafkaDecode from kafka-helper.ts: read the first byte; when it is not 0
return the raw message as payload with no schema id; otherwise read the big
endian 32 bit schema id at offset 1 and slice the payload from offset 5.
Both reads are the bounds-checked Buffer reads and throw on a buffer that
is too short. -/
def kafkaDecode (rawMessage : List Nat) : Except JsError DecodedFrame :=
  match readUInt8 rawMessage 0 with
  | .error e => .error e
  | .ok b0 =>
    if b0 ≠ 0 then .ok ⟨none, rawMessage⟩
    else
      match readUInt32BE rawMessage 1 with
      | .error e => .error e
      | .ok schemaId => .ok ⟨some schemaId, rawMessage.drop 5⟩

lemma kafkaEncode_ok (i : Nat) (p : List Nat) (h : i < 2 ^ 32) :
    kafkaEncode i p = .ok (0 :: (writeUInt32BEBytes i ++ p)) := by
  unfold kafkaEncode
  rw [if_pos h]

lemma kafkaDecode_cons5 (b1 b2 b3 b4 : Nat) (p : List Nat) :
    kafkaDecode (0 :: b1 :: b2 :: b3 :: b4 :: p) =
      .ok ⟨some (b1 * 2 ^ 24 + b2 * 2 ^ 16 + b3 * 2 ^ 8 + b4), p⟩ := by
  have h1 : 0 + 1 ≤ (0 :: b1 :: b2 :: b3 :: b4 :: p).length := by simp
  have h4 : 1 + 4 ≤ (0 :: b1 :: b2 :: b3 :: b4 :: p).length := by simp
  simp [kafkaDecode, readUInt8, readUInt32BE, h1, h4, List.getD]

lemma uint32_recompose (i : Nat) (h : i < 2 ^ 32) :
    i / 2 ^ 24 % 256 * 2 ^ 24 + i / 2 ^ 16 % 256 * 2 ^ 16 + i / 2 ^ 8 % 256 * 2 ^ 8 + i % 256 = i := by
  have e24 : (2 : Nat) ^ 24 = 16777216 := by norm_num
  have e16 : (2 : Nat) ^ 16 = 65536 := by norm_num
  have e8 : (2 : Nat) ^ 8 = 256 := by norm_num
  have e32 : (2 : Nat) ^ 32 = 4294967296 := by norm_num
  rw [e24, e16, e8] at *
  rw [e32] at h
  omega

lemma kafkaDecode_frame (i : Nat) (p : List Nat) (h : i < 2 ^ 32) :
    kafkaDecode (0 :: (writeUInt32BEBytes i ++ p)) = .ok ⟨some i, p⟩ := by
  have hc : (0 : Nat) :: (writeUInt32BEBytes i ++ p) =
      0 :: (i / 2 ^ 24 % 256) :: (i / 2 ^ 16 % 256) :: (i / 2 ^ 8 % 256) :: (i % 256) :: p := rfl
  rw [hc, kafkaDecode_cons5, uint32_recompose i h]

/-- C2: for every byte buffer p and every identifier i in the unsigned 32
bit range, decoding the frame produced by encoding returns exactly that
identifier and payload. -/
theorem c2_frame_roundtrip (i : Nat) (p : List Nat) (h : i < 2 ^ 32) :
    Except.bind (kafkaEncode i p) kafkaDecode = .ok ⟨some i, p⟩ := by
  rw [kafkaEncode_ok i p h]
  show kafkaDecode (0 :: (writeUInt32BEBytes i ++ p)) = _
  exact kafkaDecode_frame i p h

/-- Witness for C2 at identifier 1 and payload [72, 105]. -/
theorem c2_frame_roundtrip_witness :
    Except.bind (kafkaEncode 1 [72, 105]) kafkaDecode = .ok ⟨some 1, [72, 105]⟩ :=
  c2_frame_roundtrip 1 [72, 105] (by norm_num)

/-- C6 counterexample: the claim asserts that every buffer too short to
contain the 5 byte preamble, including the empty buffer, is passed through
unmodified without failing. The source calls rawMessage.readUInt8(0) first,
and on the empty buffer that Buffer read throws ERR_OUT_OF_RANGE, so
kafkaDecode fails instead of returning the payload unchanged. -/
theorem c6_counterexample : kafkaDecode [] = .error .rangeError := by
  simp [kafkaDecode, readUInt8]

/-- C6 amended: for every nonempty buffer whose first byte is not 0,
kafkaDecode returns the whole buffer as payload with no identifier and does
not fail; but a buffer too short for the read that reaches it fails with a
range error: the empty buffer fails at the marker read, and a buffer that
starts with byte 0 yet is shorter than 5 bytes fails at the identifier
read. -/
theorem c6_passthrough_amended :
    (∀ (b : Nat) (rest : List Nat), b ≠ 0 →
      kafkaDecode (b :: rest) = .ok ⟨none, b :: rest⟩) ∧
    kafkaDecode [] = .error .rangeError ∧
    kafkaDecode [0] = .error .rangeError := by
  refine ⟨?_, by simp [kafkaDecode, readUInt8], by simp [kafkaDecode, readUInt8, readUInt32BE]⟩
  intro b rest hb
  simp [kafkaDecode, readUInt8, List.getD, hb]

/-- Witness for C6 amended at the one byte buffer [7]. -/
theorem c6_passthrough_amended_witness :
    kafkaDecode [7] = .ok ⟨none, [7]⟩ :=
  c6_passthrough_amended.1 7 [] (by norm_num)

/-- Outcome of JSON.parse applied to a non-2xx response body, destructured
into the error_code and message fields (either may be undefined in
JavaScript, hence the Options). The constructor threw carries the value
JSON.parse threw on a malformed body. JSON parsing is a host runtime
builtin, external to the library, so the outcome is an input of the model. -/
inductive ParseOutcome where
  | parsedBody (error_code : Option Int) (message : Option String)
  | threw (e : JsError)
deriving DecidableEq, Repr

/-- Private method request of SchemaRegistryClient, restricted to its end
handler: resolve the body string on status 200; on any other status, when
the body is nonempty parse it as JSON and reject with a SchemaRegistryError
after squashing the error codes 404, 40401 and 40403 to 404 (rejecting the
parse failure itself when JSON.parse throws); reject with the generic
Invalid schema registry response error when the body is empty. The
statusCode and accumulated data string are the response, and parse is the
outcome JSON.parse gives on data. -/
def request (statusCode : Nat) (data : String) (parse : ParseOutcome) :
    Except JsError String :=
  if statusCode = 200 then .ok data
  else if 0 < data.length then
    match parse with
    | .parsedBody error_code message =>
      let squashed : Option Int :=
        if error_code = some 404 ∨ error_code = some 40401 ∨ error_code = some 40403 then
          some 404
        else error_code
      .error (.schemaRegistryError squashed message)
    | .threw e => .error e
  else .error (.jsError "Invalid schema registry response")

/-- C4: for every non-2xx registry response, a body parsing as JSON with
error_code and message fields yields a SchemaRegistryError whose code is
the error_code of the body, with 404, 40401 and 40403 all canonicalized to
404; an empty body yields the generic invalid response error; a nonempty
body on which JSON.parse throws surfaces the parse failure itself. -/
theorem c4_request_error_normalization (statusCode : Nat) (data : String)
    (parse : ParseOutcome) (h2xx : ¬(200 ≤ statusCode ∧ statusCode ≤ 299)) :
    (∀ (ec : Int) (msg : Option String), 0 < data.length →
      parse = .parsedBody (some ec) msg →
      request statusCode data parse =
        .error (.schemaRegistryError
          (some (if ec = 404 ∨ ec = 40401 ∨ ec = 40403 then 404 else ec)) msg)) ∧
    (data.length = 0 →
      request statusCode data parse = .error (.jsError "Invalid schema registry response")) ∧
    (∀ e : JsError, 0 < data.length → parse = .threw e →
      request statusCode data parse = .error e) := by
  have hne : statusCode ≠ 200 := by omega
  refine ⟨?_, ?_, ?_⟩
  · intro ec msg hlen hp
    subst hp
    simp only [request, if_neg hne, if_pos hlen]
    rcases Classical.em (ec = 404 ∨ ec = 40401 ∨ ec = 40403) with hc | hc
    · rw [if_pos hc]
      have : (some ec = some 404 ∨ some ec = some 40401 ∨ some ec = some 40403) := by
        rcases hc with h | h | h <;> simp [h]
      rw [if_pos this]
    · rw [if_neg hc]
      have : ¬(some ec = some (404 : Int) ∨ some ec = some 40401 ∨ some ec = some 40403) := by
        simpa using hc
      rw [if_neg this]
  · intro hlen
    simp [request, if_neg hne, hlen]
  · intro e hlen hp
    subst hp
    simp [request, if_neg hne, hlen]

/-- Witness for C4: status 404 with body error_code 40401 surfaces a
SchemaRegistryError carrying code 404, matching the error squashing
scenario of the spec; the empty body and malformed body branches are
exercised at status 500. -/
theorem c4_request_error_normalization_witness :
    request 404 "x" (.parsedBody (some 40401) (some "not found")) =
      .error (.schemaRegistryError (some 404) (some "not found")) ∧
    request 500 "" (.parsedBody none none) =
      .error (.jsError "Invalid schema registry response") ∧
    request 500 "y" (.threw (.parseFailure "Unexpected token")) =
      .error (.parseFailure "Unexpected token") := by
  refine ⟨?_, ?_, ?_⟩
  · have h := (c4_request_error_normalization 404 "x"
      (.parsedBody (some 40401) (some "not found")) (by omega)).1
      40401 (some "not found") (by decide) rfl
    simpa using h
  · exact (c4_request_error_normalization 500 ""
      (.parsedBody none none) (by omega)).2.1 rfl
  · exact (c4_request_error_normalization 500 "y"
      (.threw (.parseFailure "Unexpected token")) (by omega)).2.2
      (.parseFailure "Unexpected token") (by decide) rfl

/-- Interface SchemaDefinition from schema-registry-client.ts. The TS type
declares subject, id and version required and schema, schemaType optional,
but the values come from JSON.parse of a registry response and the register
endpoint factually answers with the id alone, so every field other than id
is modelled as optional here. Only id, schema and schemaType are read by
the orchestrator. -/
structure SchemaDefinition where
  subject : Option String
  id : Nat
  version : Option Nat
  schema : Option String
  schemaType : Option SchemaType
deriving DecidableEq, Repr

/-- Test e instanceof SchemaRegistryError && e.errorCode === 404 from
makeSureSchemaIsRegistered (an undefined errorCode is not strictly equal to
404). -/
def isRegistryError404 : JsError → Bool
  | .schemaRegistryError (some code) _ => code = 404
  | _ => false

/-- Resolved result of makeSureSchemaIsRegistered. The TS return type
declares schema as a string, but on the no-schema path it is copied
verbatim from the latest-version response where it may be absent, so it is
optional here. The schemaType of the result is always defined because the
final expression falls back to the schemaType argument. -/
structure ResolvedSchema where
  id : Nat
  schema : Option String
  schemaType : SchemaType
deriving DecidableEq, Repr

/-- Private method makeSureSchemaIsRegistered of KafkaRegistryHelper. The
three oracle arguments are the settled outcomes of the awaited client calls
checkSchema, registerSchema and getLatestVersionForSubject for this
invocation. The Bool of the result records whether registerSchema was
invoked. When schema is supplied: try checkSchema, taking its id and
falling back to the supplied schema where the response omits it; on a
SchemaRegistryError with errorCode 404 call registerSchema and backfill the
missing schema and schemaType from the supplied values; rethrow any other
checkSchema failure. When schema is omitted: use the latest version of the
subject. The returned schemaType is the resolved one with a final fallback
to the schemaType argument. -/
def makeSureSchemaIsRegistered (check reg latest : Except JsError SchemaDefinition)
    (schemaType : SchemaType) (schema : Option String) :
    Except JsError ResolvedSchema × Bool :=
  match schema with
  | some s =>
    match check with
    | .ok r =>
      (.ok ⟨r.id, some (r.schema.getD s), r.schemaType.getD schemaType⟩, false)
    | .error e =>
      if isRegistryError404 e then
        match reg with
        | .ok r =>
          (.ok ⟨r.id, some (r.schema.getD s), r.schemaType.getD schemaType⟩, true)
        | .error e2 => (.error e2, true)
      else (.error e, false)
  | none =>
    match latest with
    | .ok r => (.ok ⟨r.id, r.schema, r.schemaType.getD schemaType⟩, false)
    | .error e => (.error e, false)

/-- C1: with a supplied schema, checkSchema is attempted first: on success
its id is used with the supplied schema and schemaType filling any omitted
field and registerSchema is not called; on a SchemaRegistryError with code
404 registerSchema is called (whatever its outcome) and its missing schema
and schemaType are backfilled from the supplied values; any other
checkSchema failure propagates unchanged with registerSchema never called. -/
theorem c1_ensure_schema_registered (check reg latest : Except JsError SchemaDefinition)
    (schemaType : SchemaType) (s : String) :
    (∀ r : SchemaDefinition, check = .ok r →
      makeSureSchemaIsRegistered check reg latest schemaType (some s) =
        (.ok ⟨r.id, some (r.schema.getD s), r.schemaType.getD schemaType⟩, false)) ∧
    (∀ (msg : Option String) (r : SchemaDefinition),
      check = .error (.schemaRegistryError (some 404) msg) → reg = .ok r →
      makeSureSchemaIsRegistered check reg latest schemaType (some s) =
        (.ok ⟨r.id, some (r.schema.getD s), r.schemaType.getD schemaType⟩, true)) ∧
    (∀ msg : Option String, check = .error (.schemaRegistryError (some 404) msg) →
      (makeSureSchemaIsRegistered check reg latest schemaType (some s)).2 = true) ∧
    (∀ e : JsError, check = .error e → isRegistryError404 e = false →
      makeSureSchemaIsRegistered check reg latest schemaType (some s) =
        (.error e, false)) := by
  refine ⟨?_, ?_, ?_, ?_⟩
  · intro r hc
    subst hc
    rfl
  · intro msg r hc hr
    subst hc; subst hr
    simp [makeSureSchemaIsRegistered, isRegistryError404]
  · intro msg hc
    subst hc
    cases reg <;> simp [makeSureSchemaIsRegistered, isRegistryError404]
  · intro e hc h404
    subst hc
    simp [makeSureSchemaIsRegistered, h404]

/-- Witness for C1: a 404 from checkSchema followed by a successful
registration answering only the id yields the supplied schema and
schemaType backfilled, with registerSchema invoked. -/
theorem c1_ensure_schema_registered_witness :
    makeSureSchemaIsRegistered
      (.error (.schemaRegistryError (some 404) (some "no")))
      (.ok ⟨none, 1, none, none, none⟩)
      (.error (.jsError "unused"))
      .AVRO (some "schemaText") =
      (.ok ⟨1, some "schemaText", .AVRO⟩, true) :=
  (c1_ensure_schema_registered
      (.error (.schemaRegistryError (some 404) (some "no")))
      (.ok ⟨none, 1, none, none, none⟩)
      (.error (.jsError "unused"))
      .AVRO "schemaText").2.1 (some "no") ⟨none, 1, none, none, none⟩ rfl rfl

/-- Object returned by a SchemaHandlerFactory: encode to a Buffer and
decode from a Buffer, over caller message values of type beta. -/
structure Handler (β : Type) where
  encode : β → List Nat
  decode : List Nat → β

/-- Type SchemaHandlerFactory from kafka-registry-helper.ts. The schema
argument is optional because the JavaScript call sites pass along whatever
the registry response held, which can be undefined. -/
abbrev SchemaHandlerFactory (β : Type) := Option String → Handler β

/-- Field schemaHandlers of KafkaRegistryHelper: Map.get yields the factory
or undefined. -/
abbrev SchemaHandlers (β : Type) := SchemaType → Option (SchemaHandlerFactory β)

/-- Error thrown by encodeForId and encodeForSubject when no factory is
registered for the requested schemaType. -/
def noHandlerError (schemaType : SchemaType) : JsError :=
  .jsError ("No protocol handler for protocol " ++ schemaType.toStr)

/-- Error thrown when the schemaType argument differs from the schemaType
the registry resolved. -/
def mismatchError : JsError :=
  .jsError "Mismatch between schemaType argument and schema registry schemaType"

/-- Private method encodeMessage of KafkaRegistryHelper: build a handler
from the factory for the schemaType and frame the encoded message. The
source does not re-check the handler map here; looking up an absent entry
and calling it would raise a TypeError, modelled by jsTypeError. -/
def encodeMessage (handlers : SchemaHandlers β) (schemaId : Nat) (message : β)
    (schemaType : SchemaType) (schema : Option String) : Except JsError (List Nat) :=
  match handlers schemaType with
  | none => .error .jsTypeError
  | some factory => kafkaEncode schemaId ((factory schema).encode message)

/-- Anonymous result shape of SchemaRegistryClient.getSchemaById, parsed
from JSON: the serialized schema and an optional schemaType. The schema
field is also optional since the response body is unvalidated JSON. -/
structure SchemaByIdResponse where
  schema : Option String
  schemaType : Option SchemaType
deriving DecidableEq, Repr

/-- Method encodeForId of KafkaRegistryHelper: throw when no handler
factory exists for the schemaType argument; fetch the schema by id (oracle
getById is the settled outcome of that call); default the registry
schemaType to AVRO when absent; throw the mismatch error when it differs
from the schemaType argument; otherwise encode and frame. -/
def encodeForId (handlers : SchemaHandlers β) (getById : Except JsError SchemaByIdResponse)
    (schemaId : Nat) (message : β) (schemaType : SchemaType) : Except JsError (List Nat) :=
  match handlers schemaType with
  | none => .error (noHandlerError schemaType)
  | some _ =>
    match getById with
    | .error e => .error e
    | .ok r =>
      let registrySchemaType := r.schemaType.getD .AVRO
      if schemaType ≠ registrySchemaType then .error mismatchError
      else encodeMessage handlers schemaId message registrySchemaType r.schema

/-- Method encodeForSubject of KafkaRegistryHelper: throw when no handler
factory exists for the schemaType argument; resolve the schema through
makeSureSchemaIsRegistered (check, reg and latest are the oracles of its
awaited client calls); throw the mismatch error when the schemaType
argument differs from the resolved schemaType; otherwise encode and frame.
The AVRO default in the destructuring of the resolved record never fires
because makeSureSchemaIsRegistered always returns a defined schemaType. -/
def encodeForSubject (handlers : SchemaHandlers β)
    (check reg latest : Except JsError SchemaDefinition)
    (message : β) (schemaType : SchemaType) (schema : Option String) :
    Except JsError (List Nat) :=
  match handlers schemaType with
  | none => .error (noHandlerError schemaType)
  | some _ =>
    match (makeSureSchemaIsRegistered check reg latest schemaType schema).1 with
    | .error e => .error e
    | .ok res =>
      if schemaType ≠ res.schemaType then .error mismatchError
      else encodeMessage handlers res.id message res.schemaType res.schema

/-- Result of KafkaRegistryHelper.decode: either the payload is handed back
as bytes (no schema preamble) or a decoded message is produced. -/
inductive DecodeOutcome (β : Type) where
  | passthrough (payload : List Nat)
  | decoded (message : β)

/-- Method decode of KafkaRegistryHelper: unframe the message; when the
schemaId is truthy (defined and nonzero) fetch the schema by id through the
cached client (getById is that oracle, per id), build a handler from the
factory for the schemaType defaulting to AVRO, and decode the payload;
calling an absent factory raises a TypeError. When the schemaId is absent
or 0 the payload is returned as is. -/
def decode (handlers : SchemaHandlers β) (getById : Nat → Except JsError SchemaByIdResponse)
    (message : List Nat) : Except JsError (DecodeOutcome β) :=
  match kafkaDecode message with
  | .error e => .error e
  | .ok frame =>
    match frame.schemaId with
    | some schemaId =>
      if schemaId ≠ 0 then
        match getById schemaId with
        | .error e => .error e
        | .ok r =>
          match handlers (r.schemaType.getD .AVRO) with
          | none => .error .jsTypeError
          | some factory => .ok (.decoded ((factory r.schema).decode frame.payload))
      else .ok (.passthrough frame.payload)
    | none => .ok (.passthrough frame.payload)

/-- C5 counterexample: the claim predicts a Mismatch failure whenever the
declared schemaType differs from the registry schemaType defaulted to AVRO
when the registry omits it. Here the caller declares PROTOBUF (with a
PROTOBUF handler registered), checkSchema answers id 1 with no schemaType,
and the claim therefore demands a Mismatch error (AVRO versus PROTOBUF).
The source instead backfills the missing registry schemaType with the
declared one inside makeSureSchemaIsRegistered, so encodeForSubject
succeeds and returns a framed message. -/
theorem c5_counterexample :
    encodeForSubject
      (fun t => if t = SchemaType.PROTOBUF then
        some (fun _ => ⟨fun _ => [9], fun _ => 0⟩) else none)
      (.ok ⟨none, 1, none, none, none⟩)
      (.error (.jsError "unused")) (.error (.jsError "unused"))
      (0 : Nat) .PROTOBUF (some "S") = .ok [0, 0, 0, 0, 1, 9] := by
  rfl

/-- C5 amended: encodeForId fails with the Mismatch error whenever the
declared schemaType differs from the registry schemaType defaulted to AVRO
when the response omits it; encodeForSubject fails with the Mismatch error
whenever the declared schemaType differs from the schemaType resolved by
makeSureSchemaIsRegistered, but that resolution backfills the declared
schemaType when the registry omits it, so an omitted registry schemaType
never triggers a mismatch there; in each mismatch case the result is the
error itself for every handler map, so no encoding or framing happens. -/
theorem c5_mismatch_amended (β : Type) (handlers : SchemaHandlers β) (msg : β) :
    (∀ (f : SchemaHandlerFactory β) (r : SchemaByIdResponse) (sid : Nat) (t : SchemaType),
      handlers t = some f → r.schemaType.getD .AVRO ≠ t →
      encodeForId handlers (.ok r) sid msg t = .error mismatchError) ∧
    (∀ (f : SchemaHandlerFactory β) (check reg latest : Except JsError SchemaDefinition)
      (res : ResolvedSchema) (t : SchemaType) (s : Option String),
      handlers t = some f →
      (makeSureSchemaIsRegistered check reg latest t s).1 = .ok res →
      res.schemaType ≠ t →
      encodeForSubject handlers check reg latest msg t s = .error mismatchError) ∧
    (∀ (f : SchemaHandlerFactory β) (r : SchemaDefinition)
      (reg latest : Except JsError SchemaDefinition) (t : SchemaType) (s : String),
      handlers t = some f → r.schemaType = none →
      encodeForSubject handlers (.ok r) reg latest msg t (some s) =
        encodeMessage handlers r.id msg t (some (r.schema.getD s))) := by
  refine ⟨?_, ?_, ?_⟩
  · intro f r sid t hf hne
    simp [encodeForId, hf, Ne.symm hne]
  · intro f check reg latest res t s hf hres hne
    simp [encodeForSubject, hf, hres, Ne.symm hne]
  · intro f r reg latest t s hf hrt
    simp [encodeForSubject, hf, makeSureSchemaIsRegistered, hrt]

/-- Witness for C5 amended: a registry record tagged PROTOBUF against a
declared AVRO fails encodeForId with the Mismatch error. -/
theorem c5_mismatch_amended_witness :
    encodeForId
      (fun t => if t = SchemaType.AVRO then
        some (fun _ => ⟨fun _ => [9], fun _ => (0 : Nat)⟩) else none)
      (.ok ⟨some "S", some .PROTOBUF⟩) 1 (0 : Nat) .AVRO = .error mismatchError :=
  (c5_mismatch_amended Nat
      (fun t => if t = SchemaType.AVRO then
        some (fun _ => ⟨fun _ => [9], fun _ => (0 : Nat)⟩) else none) 0).1
    (fun _ => ⟨fun _ => [9], fun _ => (0 : Nat)⟩)
    ⟨some "S", some .PROTOBUF⟩ 1 .AVRO rfl (by decide)

/-- C9 counterexample: a framed message with schema id 1 whose registry
schema is tagged PROTOBUF while no handler factory at all is registered.
The claim demands a descriptive no-handler failure, but the source reaches
schemaHandlers.get(schemaType).apply without checking the map, so Map.get
yields undefined and calling it raises a plain TypeError, not the
descriptive Error the encode paths throw. -/
theorem c9_counterexample :
    decode (fun _ => (none : Option (SchemaHandlerFactory Nat)))
      (fun _ => .ok ⟨some "S", some .PROTOBUF⟩) [0, 0, 0, 0, 1] =
      .error .jsTypeError := by
  rfl

/-- C9 amended: for every framed message whose resolved schemaType has no
registered handler factory, decode fails (it does not pass the bytes
through), but the failure is the TypeError raised by invoking the undefined
factory rather than a descriptive no-handler error. -/
theorem c9_decode_no_handler_amended (β : Type) (handlers : SchemaHandlers β)
    (getById : Nat → Except JsError SchemaByIdResponse)
    (sid : Nat) (p : List Nat) (r : SchemaByIdResponse)
    (hsid : sid ≠ 0) (h32 : sid < 2 ^ 32)
    (hget : getById sid = .ok r)
    (hh : handlers (r.schemaType.getD .AVRO) = none) :
    decode handlers getById (0 :: (writeUInt32BEBytes sid ++ p)) = .error .jsTypeError := by
  simp [decode, kafkaDecode_frame sid p h32, hsid, hget, hh]

/-- Witness for C9 amended at schema id 1 with an empty handler map. -/
theorem c9_decode_no_handler_amended_witness :
    decode (fun _ => (none : Option (SchemaHandlerFactory Nat)))
      (fun _ => .ok ⟨some "S", some .PROTOBUF⟩)
      (0 :: (writeUInt32BEBytes 1 ++ [])) = .error .jsTypeError :=
  c9_decode_no_handler_amended Nat (fun _ => none)
    (fun _ => .ok ⟨some "S", some .PROTOBUF⟩) 1 [] ⟨some "S", some .PROTOBUF⟩
    (by decide) (by norm_num) rfl rfl

/-- C10: decode tests the decoded schema id for truthiness, so a correctly
framed message with schema id 0 returns the payload with the 5 byte
preamble already stripped, for every handler map and every registry oracle
(hence no schema fetch and no handler invocation), while a framed message
with a nonzero id resolves the schema through the registry and decodes the
payload with the handler built for the resolved schemaType. -/
theorem c10_decode_zero_id (β : Type) :
    (∀ (handlers : SchemaHandlers β) (getById : Nat → Except JsError SchemaByIdResponse)
      (p : List Nat),
      decode handlers getById (0 :: (writeUInt32BEBytes 0 ++ p)) = .ok (.passthrough p)) ∧
    (∀ (handlers : SchemaHandlers β) (getById : Nat → Except JsError SchemaByIdResponse)
      (sid : Nat) (p : List Nat) (r : SchemaByIdResponse) (f : SchemaHandlerFactory β),
      sid ≠ 0 → sid < 2 ^ 32 → getById sid = .ok r →
      handlers (r.schemaType.getD .AVRO) = some f →
      decode handlers getById (0 :: (writeUInt32BEBytes sid ++ p)) =
        .ok (.decoded ((f r.schema).decode p))) := by
  refine ⟨?_, ?_⟩
  · intro handlers getById p
    simp [decode, kafkaDecode_frame 0 p (by norm_num)]
  · intro handlers getById sid p r f hsid h32 hget hf
    simp [decode, kafkaDecode_frame sid p h32, hsid, hget, hf]

/-- Witness for C10: a frame with id 0 passes through with the preamble
stripped even though the registry oracle only reports errors, and a frame
with id 1 is decoded through the handler. -/
theorem c10_decode_zero_id_witness :
    decode (fun _ => (none : Option (SchemaHandlerFactory Nat)))
      (fun _ => .error (.jsError "registry must not be called"))
      (0 :: (writeUInt32BEBytes 0 ++ [42])) = .ok (.passthrough [42]) ∧
    decode (fun _ => some (fun _ => ⟨fun _ => [], fun p => p.length⟩))
      (fun _ => .ok ⟨some "S", none⟩)
      (0 :: (writeUInt32BEBytes 1 ++ [42])) = .ok (.decoded 1) :=
  ⟨(c10_decode_zero_id Nat).1 (fun _ => none)
      (fun _ => .error (.jsError "registry must not be called")) [42],
   (c10_decode_zero_id Nat).2 (fun _ => some (fun _ => ⟨fun _ => [], fun p => p.length⟩))
      (fun _ => .ok ⟨some "S", none⟩) 1 [42] ⟨some "S", none⟩
      (fun _ => ⟨fun _ => [], fun p => p.length⟩) (by decide) (by norm_num) rfl rfl⟩

/-- Argument value as seen by the cache key computation of
createCachedFunction: typeof distinguishes string and number (stringified
directly) from every other type, which is hashed over its JSON
serialization; the constructor other carries that serialization. -/
inductive JsArg where
  | str (s : String)
  | num (n : Int)
  | other (serialized : String)
deriving DecidableEq, Repr

/-- Key segment for one argument: the switch on typeof args[index] inside
createCachedFunction. The sha1 hex digest of crypto is a host builtin, so
it enters the model as the function parameter hashFn applied to the JSON
serialization. -/
def keySegment (hashFn : String → String) : JsArg → String
  | .str s => s
  | .num n => toString n
  | .other serialized => hashFn serialized

/-- Cache key computation of createCachedFunction: the segments are
produced by mapping over the useArgumentForCache array itself, pairing each
position with the corresponding argument, and the boolean mask values are
never consulted; the composite key is the function name and the segments
joined by a double underscore. When the mask is longer than the argument
list the JavaScript code reads undefined past the end and the hash call
throws, modelled as none. -/
def cacheKey (hashFn : String → String) (functionName : String)
    (useArgumentForCache : List Bool) (args : List JsArg) : Option String :=
  if useArgumentForCache.length ≤ args.length then
    some (functionName ++ "__" ++
      String.intercalate "__"
        ((useArgumentForCache.zip args).map (fun pair => keySegment hashFn pair.2)))
  else none

/-- C8 bug evidence: with mask [true, false] over the string arguments a
and b, the claim says only the first argument contributes, giving f__a, but
the code maps over the mask without reading its boolean values, so the
masked-out second argument still contributes and the key is f__a__b. The
JSDoc of createCachedFunction states that the booleans select the values
used for the cache key, which the code contradicts. -/
theorem c8_cache_key_mask_ignored :
    cacheKey (fun s => s) "f" [true, false] [.str "a", .str "b"] = some "f__a__b" ∧
    cacheKey (fun s => s) "f" [true, false] [.str "a", .str "b"] ≠ some "f__a" := by
  refine ⟨by rfl, by decide⟩

/-- Settlement state of one JavaScript promise over error values of type E
and result values of type V. -/
inductive PromiseState (E V : Type) where
  | pending
  | resolvedWith (v : V)
  | rejectedWith (e : E)
deriving DecidableEq, Repr

/-- Promise table entry of the cacher model: the cacheKey captured by the
catch closure attached in createCachedFunction, plus the settlement state. -/
structure PromiseEntry (E V : Type) where
  key : String
  state : PromiseState E V
deriving DecidableEq, Repr

/-- State of a FunctionCacher instance wrapping one promise-returning
function. The private cache object maps keys to the stored promise
(promises are identified by allocation number); the promise table tracks
each created promise; invocations counts how often the wrapped function was
actually invoked. A stored promise object is always truthy, matching the
cache-hit test of the source for the promise-returning client methods the
cacher wraps in this library. -/
structure CacherState (E V : Type) where
  cache : String → Option Nat
  promises : Nat → Option (PromiseEntry E V)
  nextId : Nat
  invocations : Nat

/-- Fresh FunctionCacher: private cache starts empty. -/
def emptyCacher (E V : Type) : CacherState E V :=
  ⟨fun _ => none, fun _ => none, 0, 0⟩

/-- One invocation of the wrapper returned by createCachedFunction, with
the cache key already computed: on a cache hit the stored promise is
returned at once without invoking the wrapped function; on a miss the
wrapped function is invoked, its pending promise gets the catch handler
attached, is stored in the cache immediately (promises are never
undefined), and is returned. -/
def cachedCall (st : CacherState E V) (key : String) : Nat × CacherState E V :=
  match st.cache key with
  | some pid => (pid, st)
  | none =>
    (st.nextId,
      { cache := fun k => if k = key then some st.nextId else st.cache k,
        promises := fun i => if i = st.nextId then some ⟨key, .pending⟩ else st.promises i,
        nextId := st.nextId + 1,
        invocations := st.invocations + 1 })

/-- Resolution of the underlying promise: the settlement state becomes
resolved; the catch handler does nothing and the cache is untouched. -/
def settleResolve (st : CacherState E V) (pid : Nat) (v : V) : CacherState E V :=
  match st.promises pid with
  | some entry =>
    { st with promises := fun i =>
        if i = pid then some ⟨entry.key, .resolvedWith v⟩ else st.promises i }
  | none => st

/-- Rejection of the underlying promise: the catch handler attached in
createCachedFunction runs this.clear(cacheKey) for its captured key and
rethrows, so in the settled state the key is evicted and the promise is
rejected. -/
def settleReject (st : CacherState E V) (pid : Nat) (e : E) : CacherState E V :=
  match st.promises pid with
  | some entry =>
    { st with
      cache := fun k => if k = entry.key then none else st.cache k,
      promises := fun i =>
        if i = pid then some ⟨entry.key, .rejectedWith e⟩ else st.promises i }
  | none => st

/-- C3: starting from any state with no entry for the key, a first wrapped
call invokes the function; once its promise resolves, a second call with
the same key returns the very promise holding the stored result and the
invocation count does not move; when instead the promise rejects, the catch
handler evicts the key while the rejection propagates on the returned
promise, so the next call with the same key misses the cache and invokes
the wrapped function again. -/
theorem c3_cache_correctness (E V : Type) (st : CacherState E V) (key : String)
    (v : V) (e : E) (hmiss : st.cache key = none) :
    ((settleResolve (cachedCall st key).2 (cachedCall st key).1 v).promises
        (cachedCall st key).1 = some ⟨key, .resolvedWith v⟩ ∧
      (cachedCall (settleResolve (cachedCall st key).2 (cachedCall st key).1 v) key).1 =
        (cachedCall st key).1 ∧
      (cachedCall (settleResolve (cachedCall st key).2 (cachedCall st key).1 v) key).2.invocations =
        (settleResolve (cachedCall st key).2 (cachedCall st key).1 v).invocations) ∧
    ((settleReject (cachedCall st key).2 (cachedCall st key).1 e).cache key = none ∧
      (settleReject (cachedCall st key).2 (cachedCall st key).1 e).promises
        (cachedCall st key).1 = some ⟨key, .rejectedWith e⟩ ∧
      (cachedCall (settleReject (cachedCall st key).2 (cachedCall st key).1 e) key).2.invocations =
        (settleReject (cachedCall st key).2 (cachedCall st key).1 e).invocations + 1) := by
  simp [cachedCall, settleResolve, settleReject, hmiss]

/-- Witness for C3 from the empty cacher with key k: after resolution the
second call does not add an invocation; after rejection the next call adds
one. -/
theorem c3_cache_correctness_witness :
    (cachedCall (settleResolve (cachedCall (emptyCacher String Nat) "k").2
        (cachedCall (emptyCacher String Nat) "k").1 7) "k").2.invocations =
      (settleResolve (cachedCall (emptyCacher String Nat) "k").2
        (cachedCall (emptyCacher String Nat) "k").1 7).invocations ∧
    (cachedCall (settleReject (cachedCall (emptyCacher String Nat) "k").2
        (cachedCall (emptyCacher String Nat) "k").1 "boom") "k").2.invocations =
      (settleReject (cachedCall (emptyCacher String Nat) "k").2
        (cachedCall (emptyCacher String Nat) "k").1 "boom").invocations + 1 :=
  ⟨(c3_cache_correctness String Nat (emptyCacher String Nat) "k" 7 "boom" rfl).1.2.2,
   (c3_cache_correctness String Nat (emptyCacher String Nat) "k" 7 "boom" rfl).2.2.2⟩

/-- C7 counterexample: the wrapper stores the pending promise in the cache
synchronously, before it settles, so a second call with the same key issued
while the first is still in flight hits the cache, receives the same
promise, and the wrapped function is invoked only once. The claim predicts
a second underlying invocation, which would leave the count at 2. -/
theorem c7_counterexample :
    (cachedCall (cachedCall (emptyCacher String Nat) "k").2 "k").2.invocations = 1 ∧
    (cachedCall (cachedCall (emptyCacher String Nat) "k").2 "k").1 =
      (cachedCall (emptyCacher String Nat) "k").1 ∧
    (cachedCall (emptyCacher String Nat) "k").2.promises
      (cachedCall (emptyCacher String Nat) "k").1 = some ⟨"k", .pending⟩ := by
  refine ⟨by decide, by decide, by decide⟩

/-- C7 amended: concurrent calls with the same key before the first promise
settles ARE deduplicated by this layer: the pending promise is stored in
the cache at issue time, so a second call with the same key returns that
same promise without invoking the wrapped function or changing the state;
only a miss invokes the function, and what it caches immediately is the
still pending promise. -/
theorem c7_inflight_dedup (E V : Type) (st : CacherState E V) (key : String) :
    (∀ pid : Nat, st.cache key = some pid → cachedCall st key = (pid, st)) ∧
    (st.cache key = none →
      (cachedCall st key).2.cache key = some (cachedCall st key).1 ∧
      (cachedCall st key).2.promises (cachedCall st key).1 = some ⟨key, .pending⟩ ∧
      (cachedCall st key).2.invocations = st.invocations + 1) := by
  constructor
  · intro pid hhit
    simp [cachedCall, hhit]
  · intro hmiss
    simp [cachedCall, hmiss]

/-- Witness for C7 amended: the in-flight second call from the empty cacher
returns the cached pending promise and leaves the state unchanged. -/
theorem c7_inflight_dedup_witness :
    cachedCall (cachedCall (emptyCacher String Nat) "k").2 "k" =
      (0, (cachedCall (emptyCacher String Nat) "k").2) :=
  (c7_inflight_dedup String Nat (cachedCall (emptyCacher String Nat) "k").2 "k").1 0 (by decide)

end SchematicKafka
